import Mathlib

/-!
Shallow embedding of the ENS160 driver (`ens160.py`) and verification of the
claims about its specification.

The driver is a sequential register-based protocol: every bus transaction is a
pure request/response pair, so the embedding passes bus replies in explicitly
and threads the handle state (`DeviceState`) through each operation.  Machine
words are modelled as `Nat` (the Python integers are unbounded; registers and
bus replies are bytes/words by the transport contract), and the floating-point
arithmetic of the codec is modelled over `ℚ` (the constants 273.15, 64.0 and
512.0 and all values in the chip's range are far from any float boundary
relevant to the stated 1/64 and 1/512 tolerances).
-/

namespace Ens160

/-! ### Register map — constants transcribed from the class attributes -/

def ENS160_PART_ID : Nat := 0x160

def REG_PART_ID : Nat := 0x00
def REG_OP_MODE : Nat := 0x10
def REG_CONFIG : Nat := 0x11
def REG_COMMAND : Nat := 0x12
def REG_TEMP_IN : Nat := 0x13
def REG_RH_IN : Nat := 0x15

def REG_STATUS : Nat := 0x20
def REG_DATA_AQI : Nat := 0x21
def REG_DATA_T : Nat := 0x30
def REG_DATA_MISR : Nat := 0x38

def REG_GPR_READ_START : Nat := 0x48

/-- Status register bitmasks: `BIT_STATAS = 1 << 7`. -/
def BIT_STATAS : Nat := 1 <<< 7

/-- `BIT_STATER = 1 << 6`. -/
def BIT_STATER : Nat := 1 <<< 6

/-- `BIT_VALIDITY = (1 << 2) | (1 << 3)`. -/
def BIT_VALIDITY : Nat := (1 <<< 2) ||| (1 <<< 3)

def SHIFT_VALIDITY : Nat := 2

/-- `BIT_NEWDAT = 1 << 1`. -/
def BIT_NEWDAT : Nat := 1 <<< 1

/-- `BIT_NEWGPR = 1 << 0`. -/
def BIT_NEWGPR : Nat := 1 <<< 0

def VALIDITY_NORMAL : Nat := 0x0
def VALIDITY_WARM_UP : Nat := 0x1
def VALIDITY_INITIAL_STARTUP : Nat := 0x2
def VALIDITY_INVALID : Nat := 0x3

def COMMAND_GET_APPVER : Nat := 0x0e

def OPMODE_DEEP_SLEEP : Nat := 0x0
def OPMODE_IDLE : Nat := 0x1
def OPMODE_STANDARD : Nat := 0x2
def OPMODE_RESET : Nat := 0xf0

def DEFAULT_TEMPERATURE : ℚ := 20
def DEFAULT_HUMIDITY : ℚ := 50

/-! ### Fixed-point codec

The setters in the source compute `round((celsius + 273.15) * 64.0)` and
`round(humidity * 512)`; `do_measure` decodes with `(raw / 64.0) - 273.15`
and `raw / 512.0`.  These pure conversions are factored out here exactly as
the source computes them, over `ℚ`.  (Python's `round` uses banker's rounding
at exact half-integers while Mathlib's `round` rounds halves up; both are
within 1/2 of the argument, which is the only property the claims use.) -/

/-- `round((celsius + 273.15) * 64.0)`, the word written by the `ref_temp`
setter (line 200-201 of `ens160.py`). -/
def encode_temperature (celsius : ℚ) : ℤ :=
  round ((celsius + 273.15) * 64)

/-- `round(humidity * 512)`, the word written by the `ref_humidity` setter
(line 211 of `ens160.py`). -/
def encode_humidity (humidity : ℚ) : ℤ :=
  round (humidity * 512)

/-- `(raw / 64.0) - 273.15`, the decoding applied to the reference
temperature word in `do_measure` (line 273). -/
def decode_temperature (raw : ℤ) : ℚ :=
  (raw : ℚ) / 64 - 273.15

/-- `raw / 512.0`, the decoding applied to the reference humidity word in
`do_measure` (line 276). -/
def decode_humidity (raw : ℤ) : ℚ :=
  (raw : ℚ) / 512

/-! ### Status decoder

`do_measure` (lines 232-253) derives from one status byte:
`statas = status & BIT_STATAS`, `stater = status & BIT_STATER`,
`validity = (status & BIT_VALIDITY) >> SHIFT_VALIDITY`,
`new_data = status & BIT_NEWDAT`, `new_gpr = status & BIT_NEWGPR`.
The Python code uses the raw masked values as truthy flags; the snapshot
records them as the booleans they are used as. -/

structure StatusSnapshot where
  running : Bool
  error : Bool
  validity : Nat
  dataFresh : Bool
  gprFresh : Bool
deriving Repr, DecidableEq

def decodeStatus (status : Nat) : StatusSnapshot :=
  { running := status &&& BIT_STATAS != 0
    error := status &&& BIT_STATER != 0
    validity := (status &&& BIT_VALIDITY) >>> SHIFT_VALIDITY
    dataFresh := status &&& BIT_NEWDAT != 0
    gprFresh := status &&& BIT_NEWGPR != 0 }

/-! ### Device handle state and the measurement pipeline

`__init__` sets `_aqi`, `_tvoc`, `_eco2`, `_time`, `_ref_temp`,
`_ref_humidity` and `_validity` to `None`; `do_measure` is the only method
that assigns them afterwards.  The handle state is exactly these attributes.
Timestamps (`time.time()`) are modelled by passing the current clock value in
as a parameter. -/

structure DeviceState where
  aqi : Option Nat := none
  tvoc : Option Nat := none
  eco2 : Option Nat := none
  time : Option ℚ := none
  ref_temp : Option ℚ := none
  ref_humidity : Option ℚ := none
  validity : Option Nat := none
deriving Repr, DecidableEq

/-- The bus replies consumed by one `do_measure` call: the status byte, the
5-byte block at `REG_DATA_AQI`, the 4-byte block at `REG_DATA_T`, and the
MISR byte at `REG_DATA_MISR` (the transport returns exactly the requested
number of bytes). -/
structure MeasureBus where
  status : Nat
  dataAirQuality : List Nat
  dataReference : List Nat
  dataMisr : Nat
deriving Repr, DecidableEq

/-- `do_measure` (lines 222-281 of `ens160.py`), with the bus replies passed
in explicitly.  Returns the Python return value paired with the handle state
after the call. -/
def do_measure (st : DeviceState) (bus : MeasureBus) (now : ℚ) :
    Bool × DeviceState :=
  let status := bus.status
  let statas := status &&& BIT_STATAS
  if statas = 0 then (false, st)
  else
  let stater := status &&& BIT_STATER
  if stater ≠ 0 then (false, st)
  else
  let validity := (status &&& BIT_VALIDITY) >>> SHIFT_VALIDITY
  if validity = VALIDITY_INVALID then (false, st)
  else
  let new_data := status &&& BIT_NEWDAT
  if new_data ≠ 0 then
    let data_air_quality := bus.dataAirQuality
    let data_reference_params := bus.dataReference
    let _data_misr := bus.dataMisr
    let reference_temp_raw :=
      data_reference_params.getD 0 0 ||| (data_reference_params.getD 1 0 <<< 8)
    (true,
      { st with
        time := some now
        aqi := some (data_air_quality.getD 0 0)
        tvoc := some (data_air_quality.getD 1 0 |||
          (data_air_quality.getD 2 0 <<< 8))
        eco2 := some (data_air_quality.getD 3 0 |||
          (data_air_quality.getD 4 0 <<< 8))
        ref_temp := some ((reference_temp_raw : ℚ) / 64 - 273.15)
        ref_humidity := some (((data_reference_params.getD 2 0 |||
          (data_reference_params.getD 3 0 <<< 8)) : ℚ) / 512)
        validity := some validity })
  else (false, st)

/-! ### Mode setting, calibration setters, busy-wait and bring-up

Bus writes are recorded as explicit events; a raised Python exception is an
`Except.error` carrying the error class of the spec's taxonomy
(`ValueError` on a bad mode is the spec's `InvalidInput`; `ValueError` on a
part-id mismatch is the spec's `DeviceMismatch`). -/

inductive DriverError where
  | invalidInput
  | deviceMismatch
deriving Repr, DecidableEq

inductive WriteEv where
  | byte (reg val : Nat)
  | word (reg : Nat) (val : ℤ)
deriving Repr, DecidableEq

/-- `_set_operating_mode` (lines 113-122): raises on any mode outside the
three public ones — before any bus traffic — and otherwise performs exactly
one byte write of the mode code to `REG_OP_MODE`. -/
def set_operating_mode (mode : Nat) : Except DriverError WriteEv :=
  if ¬ (mode = OPMODE_DEEP_SLEEP ∨ mode = OPMODE_IDLE ∨
      mode = OPMODE_STANDARD) then
    .error .invalidInput
  else
    .ok (.byte REG_OP_MODE mode)

/-- The `ref_temp` setter (lines 193-202): encodes and writes the word; it
assigns no instance attribute, so the handle state is returned unchanged. -/
def set_ref_temp (st : DeviceState) (temperature : ℚ) :
    DeviceState × WriteEv :=
  (st, .word REG_TEMP_IN (encode_temperature temperature))

/-- The `ref_humidity` setter (lines 204-212): encodes and writes the word;
it assigns no instance attribute, so the handle state is returned
unchanged. -/
def set_ref_humidity (st : DeviceState) (humidity : ℚ) :
    DeviceState × WriteEv :=
  (st, .word REG_RH_IN (encode_humidity humidity))

/-- The `ref_temp` property getter (lines 185-187): returns `self._ref_temp`. -/
def get_ref_temp (st : DeviceState) : Option ℚ := st.ref_temp

/-- The `ref_humidity` property getter (lines 189-191): returns
`self._ref_humidity`. -/
def get_ref_humidity (st : DeviceState) : Option ℚ := st.ref_humidity

/-- The register value assembled by `irq_setup` (lines 308-326). -/
def irq_config_reg (enable active_low open_drain assert_data assert_gpr :
    Bool) : Nat :=
  (enable.toNat <<< 0) ||| (active_low.toNat <<< 6) |||
    (open_drain.toNat <<< 5) ||| (assert_data.toNat <<< 1) |||
    (assert_gpr.toNat <<< 3)

/-- `_wait_on_status_bit` (lines 101-111) is `while True:` around a status
read, breaking only when the read byte has `bit` set.  `stream n` is the
status byte the bus returns to the (n+1)-st read of the loop, starting at
read index `i`.  The `fuel` argument is an observation bound of the
embedding, not part of the source: `some j` means the loop breaks at read
index `j` within `fuel` reads, `none` means after `fuel` reads the loop is
still spinning (the source has no timeout of any kind). -/
def wait_on_status_bit_from (stream : Nat → Nat) (bit : Nat) :
    Nat → Nat → Option Nat
  | _, 0 => none
  | i, fuel + 1 =>
    let status := stream i
    if status &&& bit ≠ 0 then some i
    else wait_on_status_bit_from stream bit (i + 1) fuel

def wait_on_status_bit (stream : Nat → Nat) (bit : Nat) (fuel : Nat) :
    Option Nat :=
  wait_on_status_bit_from stream bit 0 fuel

/-- Bus replies consumed by `_initialize`: the `REG_PART_ID` word, the
status bytes fed to the busy-wait, and the 3 firmware bytes read from
`REG_GPR_READ_START + 4`. -/
structure InitBus where
  part_id : Nat
  statusStream : Nat → Nat
  appver : List Nat

/-- `_initialize` (lines 124-160), as the list of bus writes it performs
paired with its outcome.  `some (.ok fw)` is a completed bring-up with
firmware bytes `fw`; `some (.error e)` is a raised exception; `none` means
the busy-wait is still spinning after `fuel` status reads (so no further
write has happened, and no error is raised).  The `idle()` call goes through
`_set_operating_mode(OPMODE_IDLE)`, whose mode check passes, leaving its
single byte write. -/
def initChip (bus : InitBus) (fuel : Nat) :
    List WriteEv × Option (Except DriverError (List Nat)) :=
  let w := [WriteEv.byte REG_OP_MODE OPMODE_RESET,
            WriteEv.byte REG_OP_MODE OPMODE_IDLE]
  if bus.part_id ≠ ENS160_PART_ID then
    (w, some (.error .deviceMismatch))
  else
    let w := w ++ [WriteEv.byte REG_COMMAND COMMAND_GET_APPVER]
    match wait_on_status_bit bus.statusStream BIT_NEWGPR fuel with
    | none => (w, none)
    | some _ =>
      let w := w ++
        [WriteEv.byte REG_CONFIG (irq_config_reg false true true true false),
         WriteEv.word REG_TEMP_IN (encode_temperature DEFAULT_TEMPERATURE),
         WriteEv.word REG_RH_IN (encode_humidity DEFAULT_HUMIDITY),
         WriteEv.byte REG_OP_MODE OPMODE_STANDARD]
      (w, some (.ok bus.appver))

end Ens160

open Ens160

set_option maxRecDepth 4000 in
/-- C2: status decoding is pure and total (it is a Lean function on all of
`Nat`); for every one of the 256 byte values each decoded field equals the
stated bit of the input: running = bit 7, error = bit 6, validity = bits 3:2,
data-fresh = bit 1, gpr-fresh = bit 0. -/
theorem decodeStatus_bits (b : Nat) (hb : b < 256) :
    (decodeStatus b).running = b.testBit 7 ∧
    (decodeStatus b).error = b.testBit 6 ∧
    (decodeStatus b).validity = b / 4 % 4 ∧
    (decodeStatus b).dataFresh = b.testBit 1 ∧
    (decodeStatus b).gprFresh = b.testBit 0 := by
  revert hb
  revert b
  decide

/-- Witness for C2 at the byte `0b10000010` named by the claim: its bits give
running = true, error = false, data-fresh = true, gpr-fresh = false,
validity = 0. -/
theorem decodeStatus_bits_witness :
    (0b10000010 : Nat) < 256 ∧
    ((decodeStatus 0b10000010).running = (0b10000010 : Nat).testBit 7 ∧
     (decodeStatus 0b10000010).error = (0b10000010 : Nat).testBit 6 ∧
     (decodeStatus 0b10000010).validity = (0b10000010 : Nat) / 4 % 4 ∧
     (decodeStatus 0b10000010).dataFresh = (0b10000010 : Nat).testBit 1 ∧
     (decodeStatus 0b10000010).gprFresh = (0b10000010 : Nat).testBit 0) :=
  ⟨by decide, decodeStatus_bits 0b10000010 (by decide)⟩

/-- C4: temperature round-trip.  For every celsius value in the realistic
range [-273.15, 750], decoding the encoded value differs from the input by at
most 1/64 °C. -/
theorem decode_encode_temperature (c : ℚ)
    (h : -273.15 ≤ c ∧ c ≤ 750) :
    |decode_temperature (encode_temperature c) - c| ≤ 1 / 64 := by
  obtain ⟨-, -⟩ := h
  have hround : |(c + 273.15) * 64 - round ((c + 273.15) * 64)| ≤ 1 / 2 :=
    abs_sub_round ((c + 273.15) * 64)
  have hrw : decode_temperature (encode_temperature c) - c =
      -(((c + 273.15) * 64 - round ((c + 273.15) * 64)) / 64) := by
    unfold decode_temperature encode_temperature
    ring
  rw [hrw, abs_neg, abs_div]
  rw [show |(64 : ℚ)| = 64 by norm_num]
  linarith [hround]

/-- Witness for C4 at c = 25 °C. -/
theorem decode_encode_temperature_witness :
    (-273.15 ≤ (25 : ℚ) ∧ (25 : ℚ) ≤ 750) ∧
    |decode_temperature (encode_temperature 25) - 25| ≤ 1 / 64 :=
  ⟨⟨by norm_num, by norm_num⟩,
    decode_encode_temperature 25 ⟨by norm_num, by norm_num⟩⟩

/-- C5: humidity round-trip.  For every percent value in [0, 100], decoding
the encoded value differs from the input by at most 1/512 %RH. -/
theorem decode_encode_humidity (h : ℚ)
    (hr : 0 ≤ h ∧ h ≤ 100) :
    |decode_humidity (encode_humidity h) - h| ≤ 1 / 512 := by
  obtain ⟨-, -⟩ := hr
  have hround : |h * 512 - round (h * 512)| ≤ 1 / 2 :=
    abs_sub_round (h * 512)
  have hrw : decode_humidity (encode_humidity h) - h =
      -((h * 512 - round (h * 512)) / 512) := by
    unfold decode_humidity encode_humidity
    ring
  rw [hrw, abs_neg, abs_div]
  rw [show |(512 : ℚ)| = 512 by norm_num]
  linarith [hround]

/-- Witness for C5 at h = 50 %RH. -/
theorem decode_encode_humidity_witness :
    (0 ≤ (50 : ℚ) ∧ (50 : ℚ) ≤ 100) ∧
    |decode_humidity (encode_humidity 50) - 50| ≤ 1 / 512 :=
  ⟨⟨by norm_num, by norm_num⟩,
    decode_encode_humidity 50 ⟨by norm_num, by norm_num⟩⟩

/-! ### Measurement pipeline claims -/

/-- C3: for every status byte whose data-fresh bit (bit 1) is 0 — whatever
the other bits — `do_measure` returns `false` (it never raises: every path is
a plain return) and leaves every stored Reading field unchanged. -/
theorem do_measure_stale_no_mutation (st : DeviceState) (bus : MeasureBus)
    (now : ℚ) (hb : bus.status < 256) (h : bus.status &&& BIT_NEWDAT = 0) :
    do_measure st bus now = (false, st) := by
  simp only [do_measure]
  split_ifs with h1 h2 h3 h4
  · rfl
  · rfl
  · rfl
  · exact absurd h h4
  · rfl

/-- Witness for C3: status byte `0x8C` (running set, validity = Invalid,
data-fresh clear) yields `false` with the fresh handle state untouched. -/
theorem do_measure_stale_no_mutation_witness :
    ((0x8C : Nat) < 256 ∧ (0x8C : Nat) &&& BIT_NEWDAT = 0) ∧
    do_measure {} ⟨0x8C, [1, 2, 3, 4, 5], [6, 7, 8, 9], 10⟩ 0 =
      (false, {}) :=
  ⟨⟨by decide, by decide⟩,
    do_measure_stale_no_mutation {} ⟨0x8C, [1, 2, 3, 4, 5], [6, 7, 8, 9], 10⟩
      0 (by decide) (by decide)⟩

/-- Helper: the four status quantities `do_measure` branches on are
insensitive to bit 0 of the status byte. -/
theorem status_guards_drop_bit0 :
    ∀ t, t < 128 → ∀ r, r < 2 →
      ((2 * t + r) &&& BIT_STATAS = (2 * t) &&& BIT_STATAS) ∧
      ((2 * t + r) &&& BIT_STATER = (2 * t) &&& BIT_STATER) ∧
      (((2 * t + r) &&& BIT_VALIDITY) >>> SHIFT_VALIDITY =
        ((2 * t) &&& BIT_VALIDITY) >>> SHIFT_VALIDITY) ∧
      ((2 * t + r) &&& BIT_NEWDAT = (2 * t) &&& BIT_NEWDAT) := by
  decide

/-- Helper: `do_measure` only consumes the status byte through the four
guard quantities, so equal guards give equal outcomes. -/
theorem do_measure_status_congr (st : DeviceState) (now : ℚ)
    (daq dref : List Nat) (misr : Nat) (s1 s2 : Nat)
    (hA : s1 &&& BIT_STATAS = s2 &&& BIT_STATAS)
    (hB : s1 &&& BIT_STATER = s2 &&& BIT_STATER)
    (hC : (s1 &&& BIT_VALIDITY) >>> SHIFT_VALIDITY =
      (s2 &&& BIT_VALIDITY) >>> SHIFT_VALIDITY)
    (hD : s1 &&& BIT_NEWDAT = s2 &&& BIT_NEWDAT) :
    do_measure st ⟨s1, daq, dref, misr⟩ now =
      do_measure st ⟨s2, daq, dref, misr⟩ now := by
  simp only [do_measure, hA, hB, hC, hD]

/-- C10: the gpr-fresh flag (bit 0) does not influence measurement polling:
two `do_measure` calls whose status bytes agree on every bit except bit 0,
with the same other bus replies and the same prior handle state, return the
same value and the same resulting handle state. -/
theorem do_measure_gpr_independent (st : DeviceState) (now : ℚ)
    (daq dref : List Nat) (misr : Nat) (s1 s2 : Nat)
    (h1 : s1 < 256) (h2 : s2 < 256) (hs : s1 / 2 = s2 / 2) :
    do_measure st ⟨s1, daq, dref, misr⟩ now =
      do_measure st ⟨s2, daq, dref, misr⟩ now := by
  have ht : s1 / 2 < 128 := by omega
  have g1 := status_guards_drop_bit0 (s1 / 2) ht (s1 % 2) (by omega)
  have g2 := status_guards_drop_bit0 (s1 / 2) ht (s2 % 2) (by omega)
  have hs1 : 2 * (s1 / 2) + s1 % 2 = s1 := by omega
  have hs2 : 2 * (s1 / 2) + s2 % 2 = s2 := by omega
  rw [hs1] at g1
  rw [hs2] at g2
  exact do_measure_status_congr st now daq dref misr s1 s2
    (g1.1.trans g2.1.symm) (g1.2.1.trans g2.2.1.symm)
    (g1.2.2.1.trans g2.2.2.1.symm) (g1.2.2.2.trans g2.2.2.2.symm)

/-- Witness for C10: status bytes `0x82` and `0x83` (differing only in
gpr-fresh) give identical outcomes on concrete bus data. -/
theorem do_measure_gpr_independent_witness :
    ((0x82 : Nat) < 256 ∧ (0x83 : Nat) < 256 ∧
      (0x82 : Nat) / 2 = (0x83 : Nat) / 2) ∧
    do_measure {} ⟨0x82, [1, 2, 3, 4, 5], [6, 7, 8, 9], 10⟩ 0 =
      do_measure {} ⟨0x83, [1, 2, 3, 4, 5], [6, 7, 8, 9], 10⟩ 0 :=
  ⟨⟨by decide, by decide, by decide⟩,
    do_measure_gpr_independent {} 0 [1, 2, 3, 4, 5] [6, 7, 8, 9] 10 0x82 0x83
      (by decide) (by decide) (by decide)⟩

/-- C1 counterexample: on status `0x82` with air-quality block
`[42, 10, 0, 20, 0]` and reference block `[0x00, 0x50, 0x00, 0x64]`, the
stored reference temperature is (0x5000 / 64) - 273.15 = 46.85 °C, not the
claimed ≈ 47.85 °C (it misses it by a full degree, far beyond the codec's
1/64-degree granularity), and the stored reference humidity is
0x6400 / 512 = 50.0 %, not the claimed 200.0 %. -/
theorem do_measure_fresh_concrete_counterexample :
    (do_measure {} ⟨0x82, [42, 10, 0, 20, 0], [0x00, 0x50, 0x00, 0x64], 0⟩
        0).2.ref_temp = some 46.85 ∧
    (do_measure {} ⟨0x82, [42, 10, 0, 20, 0], [0x00, 0x50, 0x00, 0x64], 0⟩
        0).2.ref_humidity = some 50 ∧
    ¬ (do_measure {} ⟨0x82, [42, 10, 0, 20, 0], [0x00, 0x50, 0x00, 0x64], 0⟩
        0).2.ref_temp = some 47.85 ∧
    ¬ (do_measure {} ⟨0x82, [42, 10, 0, 20, 0], [0x00, 0x50, 0x00, 0x64], 0⟩
        0).2.ref_humidity = some 200 := by
  refine ⟨?_, ?_, ?_, ?_⟩ <;>
    · simp [do_measure, List.getD, BIT_STATAS, BIT_STATER, BIT_VALIDITY,
        SHIFT_VALIDITY, BIT_NEWDAT, VALIDITY_INVALID]
      rw [if_pos (show (130 &&& 64 : Nat) = 0 by decide)]
      norm_num

/-- C1 (amended): for any status byte with running set, error clear,
validity not Invalid and data-fresh set, and bus replies air-quality
`[42, 10, 0, 20, 0]`, reference `[0x00, 0x50, 0x00, 0x64]` and any one MISR
byte, `do_measure` returns `true` and the resulting handle state — whatever
it was before — is the single record with aqi = 42, tvoc = 10, eco2 = 20,
ref_temp = (0x5000 / 64) - 273.15 = 46.85 °C,
ref_humidity = 0x6400 / 512 = 50.0 %, the decoded validity, and the capture
timestamp: all fields are replaced together. -/
theorem do_measure_fresh_concrete (st : DeviceState) (now : ℚ)
    (status misr : Nat)
    (hrun : status &&& BIT_STATAS ≠ 0)
    (herr : status &&& BIT_STATER = 0)
    (hval : (status &&& BIT_VALIDITY) >>> SHIFT_VALIDITY ≠ VALIDITY_INVALID)
    (hfresh : status &&& BIT_NEWDAT ≠ 0) :
    do_measure st ⟨status, [42, 10, 0, 20, 0], [0x00, 0x50, 0x00, 0x64],
        misr⟩ now =
      (true,
        { aqi := some 42, tvoc := some 10, eco2 := some 20,
          time := some now, ref_temp := some 46.85, ref_humidity := some 50,
          validity := some ((status &&& BIT_VALIDITY) >>> SHIFT_VALIDITY) }) := by
  simp only [do_measure]
  rw [if_neg hrun,
    if_neg (show ¬ (status &&& BIT_STATER ≠ 0) from fun hh => hh herr),
    if_neg hval, if_pos hfresh]
  simp [List.getD]
  norm_num

/-- Witness for C1 (amended) at status byte `0x82` with MISR byte 0,
initial handle state fresh and clock 0. -/
theorem do_measure_fresh_concrete_witness :
    ((0x82 : Nat) &&& BIT_STATAS ≠ 0 ∧ (0x82 : Nat) &&& BIT_STATER = 0 ∧
      ((0x82 : Nat) &&& BIT_VALIDITY) >>> SHIFT_VALIDITY ≠ VALIDITY_INVALID ∧
      (0x82 : Nat) &&& BIT_NEWDAT ≠ 0) ∧
    do_measure {} ⟨0x82, [42, 10, 0, 20, 0], [0x00, 0x50, 0x00, 0x64], 0⟩ 0 =
      (true,
        { aqi := some 42, tvoc := some 10, eco2 := some 20,
          time := some 0, ref_temp := some 46.85, ref_humidity := some 50,
          validity :=
            some (((0x82 : Nat) &&& BIT_VALIDITY) >>> SHIFT_VALIDITY) }) :=
  ⟨⟨by decide, by decide, by decide, by decide⟩,
    do_measure_fresh_concrete {} 0 0x82 0 (by decide) (by decide) (by decide)
      (by decide)⟩

/-! ### Mode-set, bring-up, busy-wait and calibration claims -/

/-- C6: every mode code other than DeepSleep (0x0), Idle (0x1) and
Standard (0x2) — the reset code 0xF0 included — is rejected by the mode-set
operation with InvalidInput (the raised `ValueError`); the raise happens
before the bus write, so no write occurs and the device is untouched. -/
theorem set_operating_mode_rejects (mode : Nat)
    (h0 : mode ≠ OPMODE_DEEP_SLEEP) (h1 : mode ≠ OPMODE_IDLE)
    (h2 : mode ≠ OPMODE_STANDARD) :
    set_operating_mode mode = .error .invalidInput := by
  simp only [set_operating_mode]
  rw [if_pos]
  exact fun hc => hc.elim h0 fun hc2 => hc2.elim h1 h2

/-- Witness for C6 at the reset code 0xF0. -/
theorem set_operating_mode_rejects_witness :
    ((0xF0 : Nat) ≠ OPMODE_DEEP_SLEEP ∧ (0xF0 : Nat) ≠ OPMODE_IDLE ∧
      (0xF0 : Nat) ≠ OPMODE_STANDARD) ∧
    set_operating_mode 0xF0 = .error .invalidInput :=
  ⟨⟨by decide, by decide, by decide⟩,
    set_operating_mode_rejects 0xF0 (by decide) (by decide) (by decide)⟩

/-- C7: when the identity register read returns anything other than 0x160,
bring-up fails with DeviceMismatch, and the complete list of bus writes is
the reset write followed by the forced Idle mode-set — nothing after the
failure. -/
theorem initChip_mismatch (bus : InitBus) (fuel : Nat)
    (h : bus.part_id ≠ ENS160_PART_ID) :
    initChip bus fuel =
      ([WriteEv.byte REG_OP_MODE OPMODE_RESET,
        WriteEv.byte REG_OP_MODE OPMODE_IDLE],
        some (.error .deviceMismatch)) := by
  simp only [initChip]
  rw [if_pos h]

/-- Witness for C7: a bus whose identity register reads 0. -/
theorem initChip_mismatch_witness :
    (InitBus.mk 0 (fun _ => 0) []).part_id ≠ ENS160_PART_ID ∧
    initChip (InitBus.mk 0 (fun _ => 0) []) 0 =
      ([WriteEv.byte REG_OP_MODE OPMODE_RESET,
        WriteEv.byte REG_OP_MODE OPMODE_IDLE],
        some (.error .deviceMismatch)) :=
  ⟨by decide, initChip_mismatch (InitBus.mk 0 (fun _ => 0) []) 0 (by decide)⟩

/-- C8 counterexample: on a bus whose status byte never has the gpr-fresh
bit set, the firmware-version busy-wait is still spinning after 100 reads
and no error of any kind has been surfaced — concretely refuting "bounded
by a timeout". -/
theorem wait_on_status_bit_counterexample :
    wait_on_status_bit (fun _ => 0) BIT_NEWGPR 100 = none := by
  rfl

/-- C8 (amended): the busy-wait in the source has no timeout: it exits only
when a returned status byte has the awaited bit set, so on a status-byte
sequence where the bit never sets, the loop is still running after every
number of iterations — it loops forever and never surfaces a Timeout error
(no such error exists in the code). -/
theorem wait_on_status_bit_no_timeout (fuel : Nat) :
    wait_on_status_bit (fun _ => 0) BIT_NEWGPR fuel = none := by
  have key : ∀ n i,
      wait_on_status_bit_from (fun _ => 0) BIT_NEWGPR i n = none := by
    intro n
    induction n with
    | zero => intro i; rfl
    | succ m ih =>
      intro i
      simp only [wait_on_status_bit_from]
      rw [if_neg (by decide)]
      exact ih (i + 1)
  exact key fuel 0

/-- C9 counterexample: from a fresh handle, after invoking the
reference-temperature setter with 25 °C the accessor does not return 25 —
it still returns `none`, because the setter writes to the chip without
updating the handle. -/
theorem calibration_getter_counterexample :
    get_ref_temp (set_ref_temp {} 25).1 = none ∧
    ¬ get_ref_temp (set_ref_temp {} 25).1 = some 25 :=
  ⟨rfl, by simp [get_ref_temp, set_ref_temp]⟩

/-- C9 (amended): the calibration setters encode the requested value and
write it to the chip but leave the handle state — and hence both accessors —
unchanged; the accessors report the value decoded from the chip's reference
registers at the last measurement (`none` before any), not the last value
requested. -/
theorem calibration_setters_leave_handle (st : DeviceState) (t h : ℚ) :
    (set_ref_temp st t).1 = st ∧
    (set_ref_humidity st h).1 = st ∧
    get_ref_temp (set_ref_temp st t).1 = st.ref_temp ∧
    get_ref_humidity (set_ref_humidity st h).1 = st.ref_humidity ∧
    (set_ref_temp st t).2 = WriteEv.word REG_TEMP_IN (encode_temperature t) ∧
    (set_ref_humidity st h).2 =
      WriteEv.word REG_RH_IN (encode_humidity h) :=
  ⟨rfl, rfl, rfl, rfl, rfl, rfl⟩
